import Mathlib

/-!
Verification of the ShadowDomKit core (`src/ShadowDomKit.js`): the
shadow-boundary-crossing element locator (`_findInShadowDOM`,
`_findAllInShadowDOM`, `findElementById`, `findElementsBySelector`),
the initializer registry (`registerComponentType`, `_initializeByType`)
and the delayed component dispatcher (`initComponent`).

The DOM is embedded as a tree of elements.  Each element has an id, a
set of selector tags (a selector matches an element iff it is the
universal selector `*` or one of the element's tags), an optional
shadow root that is either open (`mode = some true`) or closed
(`mode = some false`), the child list of that shadow root, and its
ordinary (light) child list.  As in the browser, `node.shadowRoot`
yields the shadow child list only for open shadow roots and is null
for closed ones, and `getElementById` / `querySelectorAll` on a root
scan only the light tree under that root in document (pre-)order,
never piercing shadow boundaries.
-/

namespace ShadowKit

/-- An element of the modelled DOM tree. -/
inductive Elem : Type where
  | mk (eid : String) (tags : List String) (mode : Option Bool)
       (shadow : List Elem) (children : List Elem)

/-- The id attribute of an element. -/
def Elem.eid : Elem → String
  | .mk i _ _ _ _ => i

/-- The selector tags of an element. -/
def Elem.tags : Elem → List String
  | .mk _ t _ _ _ => t

/-- Shadow root mode: `none` = no shadow root, `some true` = open, `some false` = closed. -/
def Elem.mode : Elem → Option Bool
  | .mk _ _ m _ _ => m

/-- The child list of the element's shadow root (meaningful when `mode ≠ none`). -/
def Elem.shadow : Elem → List Elem
  | .mk _ _ _ s _ => s

/-- The light-DOM children of the element. -/
def Elem.children : Elem → List Elem
  | .mk _ _ _ _ c => c

/-- `node.shadowRoot` as visible to script: the shadow child list for an
open shadow root, and null (`none`) when there is no shadow root or it is closed. -/
def Elem.shadowRoot (e : Elem) : Option (List Elem) :=
  match e.mode with
  | some true => some e.shadow
  | _ => none

mutual

/-- All elements of the light tree rooted at `e` (including `e`), in document pre-order. -/
def lightDescE : Elem → List Elem
  | .mk i t m s c => .mk i t m s c :: lightDescL c

/-- All elements of the light trees of a root's child list, in document pre-order. -/
def lightDescL : List Elem → List Elem
  | [] => []
  | e :: es => lightDescE e ++ lightDescL es

end

/-- Whether a CSS selector matches an element: `*` matches everything,
any other pattern matches iff it is one of the element's tags. -/
def selMatches (sel : String) (e : Elem) : Bool :=
  sel == "*" || e.tags.contains sel

/-- `root.querySelectorAll(sel)`: all matching elements of the light tree
under `root`, in document order, not piercing shadow boundaries. -/
def querySelectorAll (sel : String) (root : List Elem) : List Elem :=
  (lightDescL root).filter (selMatches sel)

/-- `root.getElementById(eid)`: the first element of the light tree under
`root` (in document order) whose id matches, not piercing shadow boundaries. -/
def getElementById (eid : String) (root : List Elem) : Option Elem :=
  (lightDescL root).find? (fun e => e.eid == eid)

theorem sizeOf_shadow_lt (e : Elem) : sizeOf e.shadow < sizeOf e := by
  cases e with
  | mk i t m s c => simp [Elem.shadow]; omega

mutual

theorem sizeOf_le_of_mem_lightDescE {x : Elem} {e : Elem}
    (h : x ∈ lightDescE e) : sizeOf x ≤ sizeOf e := by
  cases e with
  | mk i t m s c =>
    rw [lightDescE] at h
    rcases List.mem_cons.mp h with h' | h'
    · subst h'; exact Nat.le_refl _
    · have := sizeOf_lt_of_mem_lightDescL h'
      simp at *
      omega

theorem sizeOf_lt_of_mem_lightDescL {x : Elem} {l : List Elem}
    (h : x ∈ lightDescL l) : sizeOf x < sizeOf l := by
  cases l with
  | nil => rw [lightDescL] at h; cases h
  | cons e es =>
    rw [lightDescL] at h
    rcases List.mem_append.mp h with h' | h'
    · have := sizeOf_le_of_mem_lightDescE h'
      simp
      omega
    · have := sizeOf_lt_of_mem_lightDescL h'
      simp
      omega

end

theorem sizeOf_shadow_lt_of_mem_qsa {x : Elem} {root : List Elem}
    (h : x ∈ querySelectorAll "*" root) : sizeOf x.shadow < sizeOf root := by
  have hx : x ∈ lightDescL root := List.mem_of_mem_filter h
  exact Nat.lt_trans (sizeOf_shadow_lt x) (sizeOf_lt_of_mem_lightDescL hx)

theorem sizeOf_of_shadowRoot {e : Elem} {sr : List Elem}
    (h : e.shadowRoot = some sr) : sizeOf sr < sizeOf e := by
  unfold Elem.shadowRoot at h
  cases hm : e.mode with
  | none => rw [hm] at h; cases h
  | some b =>
    cases b with
    | false => rw [hm] at h; cases h
    | true =>
      rw [hm] at h
      cases h
      exact sizeOf_shadow_lt e

mutual

/-- Embeds `_findInShadowDOM(elementId, root)`: first a direct
`getElementById` lookup in the current root, then a loop over
`root.querySelectorAll("*")` that, for each node with a (script-visible,
i.e. open) shadow root, tries `getElementById` there and otherwise
recurses into that shadow root. -/
def _findInShadowDOM (eid : String) (root : List Elem) : Option (Elem × List Elem) :=
  match getElementById eid root with
  | some directMatch => some (directMatch, root)
  | none => findIdLoop eid root (querySelectorAll "*" root).attach
termination_by (sizeOf root, (querySelectorAll "*" root).length + 1)
decreasing_by
  apply Prod.Lex.right
  simp [List.length_attach]

/-- The `for (const node of nodes)` loop of `_findInShadowDOM`, over the
nodes returned by `root.querySelectorAll("*")`. -/
def findIdLoop (eid : String) (root : List Elem) :
    List {e : Elem // e ∈ querySelectorAll "*" root} → Option (Elem × List Elem)
  | [] => none
  | ⟨node, hmem⟩ :: rest =>
    match hsr : node.shadowRoot with
    | some sr =>
      match getElementById eid sr with
      | some found => some (found, sr)
      | none =>
        match _findInShadowDOM eid sr with
        | some nestedFound => some nestedFound
        | none => findIdLoop eid root rest
    | none => findIdLoop eid root rest
termination_by l => (sizeOf root, l.length)
decreasing_by
  · apply Prod.Lex.left
    exact Nat.lt_trans (sizeOf_of_shadowRoot hsr)
      (sizeOf_lt_of_mem_lightDescL (List.mem_of_mem_filter hmem))
  · apply Prod.Lex.right
    simp
  · apply Prod.Lex.right
    simp

end

mutual

/-- Embeds `_findAllInShadowDOM(selector, root, results)` (with the
accumulator turned into the returned list, in the same push order): all
direct `querySelectorAll` matches of the current root first, then the
results of recursing into the shadow root of every node of
`root.querySelectorAll("*")` that has one, in order. -/
def _findAllInShadowDOM (sel : String) (root : List Elem) : List (Elem × List Elem) :=
  ((querySelectorAll sel root).map (fun element => (element, root))) ++
    findAllLoop sel root (querySelectorAll "*" root).attach
termination_by (sizeOf root, (querySelectorAll "*" root).length + 1)
decreasing_by
  apply Prod.Lex.right
  simp [List.length_attach]

/-- The `for (const node of nodes)` loop of `_findAllInShadowDOM`. -/
def findAllLoop (sel : String) (root : List Elem) :
    List {e : Elem // e ∈ querySelectorAll "*" root} → List (Elem × List Elem)
  | [] => []
  | ⟨node, hmem⟩ :: rest =>
    (match hsr : node.shadowRoot with
     | some sr => _findAllInShadowDOM sel sr
     | none => []) ++ findAllLoop sel root rest
termination_by l => (sizeOf root, l.length)
decreasing_by
  · apply Prod.Lex.left
    exact Nat.lt_trans (sizeOf_of_shadowRoot hsr)
      (sizeOf_lt_of_mem_lightDescL (List.mem_of_mem_filter hmem))
  · apply Prod.Lex.right
    simp

end

mutual

/-- Specification-side enumeration of every element reachable from `root`
through open shadow roots, paired with the root (document or shadow tree)
directly containing it, in the depth-first document-then-nested-shadow
order that both search operations traverse: all light-tree elements of
`root` first, then, for each of them in document order that has an open
shadow root, the enumeration of that shadow tree. -/
def reachAll (root : List Elem) : List (Elem × List Elem) :=
  ((lightDescL root).map (fun e => (e, root))) ++
    reachLoop root (querySelectorAll "*" root).attach
termination_by (sizeOf root, (querySelectorAll "*" root).length + 1)
decreasing_by
  apply Prod.Lex.right
  simp [List.length_attach]

/-- The per-node part of `reachAll`. -/
def reachLoop (root : List Elem) :
    List {e : Elem // e ∈ querySelectorAll "*" root} → List (Elem × List Elem)
  | [] => []
  | ⟨node, hmem⟩ :: rest =>
    (match hsr : node.shadowRoot with
     | some sr => reachAll sr
     | none => []) ++ reachLoop root rest
termination_by l => (sizeOf root, l.length)
decreasing_by
  · apply Prod.Lex.left
    exact Nat.lt_trans (sizeOf_of_shadowRoot hsr)
      (sizeOf_lt_of_mem_lightDescL (List.mem_of_mem_filter hmem))
  · apply Prod.Lex.right
    simp

end

/-- Embeds `findElementById(elementId, root)`: delegates to `_findInShadowDOM`
(the source method additionally emits a debug-gated log line). -/
def findElementById (elementId : String) (root : List Elem) : Option (Elem × List Elem) :=
  _findInShadowDOM elementId root

/-- Embeds `findElementsBySelector(selector, root)`: delegates to
`_findAllInShadowDOM` with a fresh results accumulator. -/
def findElementsBySelector (selector : String) (root : List Elem) : List (Elem × List Elem) :=
  _findAllInShadowDOM selector root

mutual

/-- Master characterization: `_findInShadowDOM` returns exactly the first
entry of the `reachAll` enumeration whose element has the searched id. -/
theorem _findInShadowDOM_eq (eid : String) (root : List Elem) :
    _findInShadowDOM eid root =
      (reachAll root).find? (fun p => p.1.eid == eid) := by
  rw [_findInShadowDOM.eq_def, reachAll.eq_def]
  rw [List.find?_append, List.find?_map]
  have hco : List.find?
      ((fun p : Elem × List Elem => p.1.eid == eid) ∘ (fun e => (e, root)))
      (lightDescL root) = getElementById eid root := rfl
  rw [hco]
  cases h : getElementById eid root with
  | some directMatch => simp [Option.or]
  | none =>
    simp only [Option.map_none, Option.none_or]
    exact findIdLoop_eq eid root (querySelectorAll "*" root).attach
termination_by (sizeOf root, (querySelectorAll "*" root).length + 1)
decreasing_by
  apply Prod.Lex.right
  simp [List.length_attach]

/-- Loop part of the master characterization for `_findInShadowDOM`. -/
theorem findIdLoop_eq (eid : String) (root : List Elem)
    (l : List {e : Elem // e ∈ querySelectorAll "*" root}) :
    findIdLoop eid root l =
      (reachLoop root l).find? (fun p => p.1.eid == eid) := by
  match l with
  | [] => rw [findIdLoop.eq_def, reachLoop.eq_def]; rfl
  | ⟨node, hmem⟩ :: rest =>
    rw [findIdLoop.eq_def, reachLoop.eq_def]
    simp only [List.find?_append]
    cases hsr : node.shadowRoot with
    | none =>
      simp only [List.find?_nil, Option.none_or]
      exact findIdLoop_eq eid root rest
    | some sr =>
      rw [← _findInShadowDOM_eq eid sr]
      cases hg : getElementById eid sr with
      | some found =>
        have h1 : _findInShadowDOM eid sr = some (found, sr) := by
          rw [_findInShadowDOM.eq_def, hg]
        simp only [hg, h1]
        rfl
      | none =>
        cases hf : _findInShadowDOM eid sr with
        | some nestedFound =>
          simp only [hg, hf]
          rfl
        | none =>
          simp only [hg, hf, Option.none_or]
          exact findIdLoop_eq eid root rest
termination_by (sizeOf root, l.length)
decreasing_by
  all_goals first
  | (apply Prod.Lex.left
     exact Nat.lt_trans (sizeOf_of_shadowRoot hsr)
       (sizeOf_lt_of_mem_lightDescL (List.mem_of_mem_filter hmem)))
  | (apply Prod.Lex.right
     simp)

end

mutual

/-- Master characterization: `_findAllInShadowDOM` returns exactly the
entries of the `reachAll` enumeration whose element matches the selector,
in enumeration order. -/
theorem _findAllInShadowDOM_eq (sel : String) (root : List Elem) :
    _findAllInShadowDOM sel root =
      (reachAll root).filter (fun p => selMatches sel p.1) := by
  rw [_findAllInShadowDOM.eq_def, reachAll.eq_def]
  rw [List.filter_append, List.filter_map]
  have hco : (lightDescL root).filter
      ((fun p : Elem × List Elem => selMatches sel p.1) ∘ (fun e => (e, root))) =
      querySelectorAll sel root := rfl
  rw [hco]
  rw [findAllLoop_eq sel root (querySelectorAll "*" root).attach]
termination_by (sizeOf root, (querySelectorAll "*" root).length + 1)
decreasing_by
  apply Prod.Lex.right
  simp [List.length_attach]

/-- Loop part of the master characterization for `_findAllInShadowDOM`. -/
theorem findAllLoop_eq (sel : String) (root : List Elem)
    (l : List {e : Elem // e ∈ querySelectorAll "*" root}) :
    findAllLoop sel root l =
      (reachLoop root l).filter (fun p => selMatches sel p.1) := by
  match l with
  | [] => rw [findAllLoop.eq_def, reachLoop.eq_def]; rfl
  | ⟨node, hmem⟩ :: rest =>
    rw [findAllLoop.eq_def, reachLoop.eq_def]
    simp only [List.filter_append]
    cases hsr : node.shadowRoot with
    | none =>
      simp only [List.filter_nil]
      rw [findAllLoop_eq sel root rest]
    | some sr =>
      rw [← _findAllInShadowDOM_eq sel sr]
      rw [findAllLoop_eq sel root rest]
termination_by (sizeOf root, l.length)
decreasing_by
  all_goals first
  | (apply Prod.Lex.left
     exact Nat.lt_trans (sizeOf_of_shadowRoot hsr)
       (sizeOf_lt_of_mem_lightDescL (List.mem_of_mem_filter hmem)))
  | (apply Prod.Lex.right
     simp)

end

/-- The per-node part of `reachAll`, as a flat map over the plain node list. -/
theorem reachLoop_eq_flatMap (root : List Elem)
    (l : List {e : Elem // e ∈ querySelectorAll "*" root}) :
    reachLoop root l = l.flatMap (fun x =>
      match x.1.shadowRoot with
      | some sr => reachAll sr
      | none => []) := by
  induction l with
  | nil => rw [reachLoop.eq_def]; rfl
  | cons x rest ih =>
    obtain ⟨node, hmem⟩ := x
    rw [reachLoop.eq_def]
    simp only [List.flatMap_cons]
    rw [ih]
    cases node.shadowRoot <;> rfl

/-- Non-dependent recursion equation for `reachAll`, used to evaluate it
on concrete trees. -/
theorem reachAll_unfold (root : List Elem) :
    reachAll root = ((lightDescL root).map (fun e => (e, root))) ++
      (querySelectorAll "*" root).flatMap (fun node =>
        match node.shadowRoot with
        | some sr => reachAll sr
        | none => []) := by
  rw [reachAll.eq_def, reachLoop_eq_flatMap]
  congr 1
  simp

/-!
The component dispatcher.  `V` is the type of JS values that handlers
traffic in (options, returned instances, thrown errors); `Option V` adds
the JS null/undefined (`none`).  A handler invocation either returns a
value or throws, which the synchronous invocation in the source either
resolves or lets propagate to the `catch` block of `initComponent`.
-/

/-- Outcome of synchronously invoking a handler: a returned value
(possibly null) or a thrown error value. -/
inductive HOut (V : Type) where
  | ret (v : Option V)
  | thr (e : V)
deriving DecidableEq

/-- An initializer function: receives the found element, its context root
and the request's options value. -/
def Handler (V : Type) := Elem → List Elem → Option V → HOut V

/-- A JS value passed where a function is expected: either an invocable
function or some non-function value (`typeof x !== 'function'`). -/
inductive RegArg (V : Type) where
  | fn (h : Handler V)
  | nonfn (v : Option V)

/-- The `_initCallbacks` keyed store: lookup by name, last write first. -/
def Registry (V : Type) := List (String × Handler V)

/-- `this._initCallbacks[componentType]`: the most recently stored handler
under that name, if any. -/
def lookupCallback (reg : Registry V) (name : String) : Option (Handler V) :=
  (reg.find? (fun kv => kv.1 == name)).map (fun kv => kv.2)

/-- A rejection reason: an `Error` built from a message string, or a value
thrown by a handler and re-surfaced by the `catch` block. -/
inductive IErr (V : Type) where
  | err (msg : String)
  | raised (v : V)
deriving DecidableEq

/-- The settled outcome of an `initComponent` request. -/
inductive Outcome (V : Type) where
  | success (v : Option V)
  | failure (e : IErr V)
deriving DecidableEq

/-- Observable events of one `initComponent` request, in order: the timer
suspension, element searches, warning/error log lines, handler
invocations, and the single promise settlement. -/
inductive Ev (V : Type) where
  | delay (ms : Nat)
  | searchById (eid : String)
  | searchBySelector (sel : String)
  | logWarn (msg : String)
  | logError (msg : String)
  | invokeCustom
  | invokeRegistry (name : String)
  | invokeBuiltin (name : String)
  | settle (o : Outcome V)
deriving DecidableEq

/-- The configuration object destructured by `initComponent`.  `none`
models an absent (undefined) field. -/
structure Config (V : Type) where
  elementId : Option String := none
  selector : Option String := none
  componentType : Option String := none
  options : Option V := none
  customInit : Option (RegArg V) := none
  delay : Option Nat := none

/-- Instance options fixed at construction. -/
structure KitOptions where
  debug : Bool := false
  searchDelay : Nat := 300

/-- JS truthiness of an optional string field: absent (undefined) and the
empty string are falsy. -/
def truthyStr : Option String → Bool
  | some s => !(s == "")
  | none => false

/-- `s.toLowerCase()`: lowercases every character of the string. -/
def toLowerCase (s : String) : String := ⟨s.data.map Char.toLower⟩

/-- Embeds `registerComponentType(typeName, initFunction)`: a non-function
argument logs an error and leaves the store unchanged; a function is
stored under the name, shadowing any earlier entry. -/
def registerComponentType (reg : Registry V) (typeName : String)
    (initFunction : RegArg V) : List (Ev V) × Registry V :=
  match initFunction with
  | RegArg.nonfn _ => ([Ev.logError "Init function must be a function"], reg)
  | RegArg.fn f => ([], (typeName, f) :: reg)

/-- Embeds `_initializeByType(componentType, element, context, options)`:
a registered callback is invoked if present; otherwise the lowercased
name selects the built-in Flowbite-accordion initializer (modelled by the
external parameter `accordion`, which returns an instance or null and
catches its own faults); otherwise a warning is logged and null is
returned.  The returned `HOut` is the value returned to (or the error
thrown through) `initComponent`. -/
def _initializeByType (reg : Registry V)
    (accordion : Elem → List Elem → Option V → Option V)
    (componentType : String) (element : Elem) (context : List Elem)
    (options : Option V) : List (Ev V) × HOut V :=
  match lookupCallback reg componentType with
  | some cb => ([Ev.invokeRegistry componentType], cb element context options)
  | none =>
    if toLowerCase componentType == "flowbite-accordion" ||
        toLowerCase componentType == "accordion" then
      ([Ev.invokeBuiltin componentType],
       HOut.ret (accordion element context options))
    else
      ([Ev.logWarn ("Unknown component type: " ++ componentType)],
       HOut.ret none)

/-- How a synchronous handler outcome settles the promise: a returned
value resolves it; a thrown error reaches the `catch` block of
`initComponent`, which logs it and rejects with it as the reason. -/
def settleEvents : HOut V → List (Ev V)
  | HOut.ret v => [Ev.settle (Outcome.success v)]
  | HOut.thr e =>
    [Ev.logError "Error initializing component:",
     Ev.settle (Outcome.failure (IErr.raised e))]

/-- The handler-resolution-and-invocation phase of `initComponent`, run
after an element has been found: a function-valued `customInit` is
invoked directly; otherwise a truthy `componentType` dispatches through
`_initializeByType`; otherwise the request rejects with a configuration
error.  A synchronously thrown error is caught by the surrounding
`catch`, logged, and becomes the rejection reason. -/
def dispatchPhase (reg : Registry V)
    (accordion : Elem → List Elem → Option V → Option V)
    (config : Config V) (element : Elem) (context : List Elem) : List (Ev V) :=
  match config.customInit with
  | some (RegArg.fn h) =>
    Ev.invokeCustom :: settleEvents (h element context config.options)
  | _ =>
    if truthyStr config.componentType then
      let r := _initializeByType reg accordion (config.componentType.getD "")
        element context config.options
      r.1 ++ settleEvents r.2
    else
      [Ev.logError "Either componentType or customInit must be provided",
       Ev.settle (Outcome.failure
         (IErr.err "Either componentType or customInit must be provided"))]

/-- Embeds `initComponent(config)` as the ordered event trace of one
request against the document `doc`: the `setTimeout` suspension for the
per-request delay (defaulting to the instance's `searchDelay`) happens
first; then the locate step (`elementId` first, else `selector`, else a
configuration error); then `dispatchPhase`. -/
def initComponent (inst : KitOptions) (reg : Registry V)
    (accordion : Elem → List Elem → Option V → Option V)
    (doc : List Elem) (config : Config V) : List (Ev V) :=
  Ev.delay (config.delay.getD inst.searchDelay) ::
    (if truthyStr config.elementId then
      let elementId := config.elementId.getD ""
      Ev.searchById elementId ::
        (match findElementById elementId doc with
         | none =>
           [Ev.logWarn ("Element with ID \"" ++ elementId ++
              "\" not found in any DOM context."),
            Ev.settle (Outcome.failure (IErr.err
              ("Element with ID \"" ++ elementId ++ "\" not found")))]
         | some result => dispatchPhase reg accordion config result.1 result.2)
    else if truthyStr config.selector then
      let selector := config.selector.getD ""
      Ev.searchBySelector selector ::
        (match findElementsBySelector selector doc with
         | [] =>
           [Ev.logWarn ("No elements matching \"" ++ selector ++
              "\" found in any DOM context."),
            Ev.settle (Outcome.failure (IErr.err
              ("No elements matching \"" ++ selector ++ "\" found")))]
         | result :: _ => dispatchPhase reg accordion config result.1 result.2)
    else
      [Ev.logError "Either elementId or selector must be provided",
       Ev.settle (Outcome.failure
         (IErr.err "Either elementId or selector must be provided"))])

/-- Whether an event is a handler invocation. -/
def Ev.isInvoke : Ev V → Bool
  | Ev.invokeCustom => true
  | Ev.invokeRegistry _ => true
  | Ev.invokeBuiltin _ => true
  | _ => false

/-- Whether an event is an element search. -/
def Ev.isSearch : Ev V → Bool
  | Ev.searchById _ => true
  | Ev.searchBySelector _ => true
  | _ => false

/-- Whether an event is the promise settlement. -/
def Ev.isSettle : Ev V → Bool
  | Ev.settle _ => true
  | _ => false

/-- The settled outcome recorded in a trace (the first settle event). -/
def settleOf (tr : List (Ev V)) : Option (Outcome V) :=
  tr.findSome? (fun e =>
    match e with
    | Ev.settle o => some o
    | _ => none)

/-- `find?` returns the unique entry satisfying the predicate. -/
theorem find?_eq_some_of_unique {α : Type} {l : List α} {pred : α → Bool} {p : α}
    (hmem : p ∈ l) (hp : pred p = true)
    (huniq : ∀ q ∈ l, pred q = true → q = p) :
    l.find? pred = some p := by
  induction l with
  | nil => cases hmem
  | cons x xs ih =>
    by_cases hx : pred x = true
    · have hxp : x = p := huniq x (List.mem_cons_self x xs) hx
      rw [List.find?_cons_of_pos xs hx, hxp]
    · rw [List.find?_cons_of_neg xs hx]
      apply ih
      · rcases List.mem_cons.mp hmem with h | h
        · exact absurd (h ▸ hp) hx
        · exact h
      · exact fun q hq hq' => huniq q (List.mem_cons_of_mem x hq) hq'

/-- C3: for a tree in which the identifier `id` occurs at exactly one
place among the elements reachable through open shadow trees,
`findElementById` returns that element paired with the root directly
containing it, and for an identifier absent everywhere reachable it
returns `none`. -/
theorem C3_findById_unique_and_absent :
    (∀ (id : String) (root : List Elem) (p : Elem × List Elem),
        p ∈ reachAll root → p.1.eid = id →
        (∀ q ∈ reachAll root, q.1.eid = id → q = p) →
        findElementById id root = some p) ∧
    (∀ (id : String) (root : List Elem),
        (∀ q ∈ reachAll root, q.1.eid ≠ id) →
        findElementById id root = none) := by
  constructor
  · intro id root p hmem hid huniq
    rw [findElementById, _findInShadowDOM_eq]
    apply find?_eq_some_of_unique hmem
    · simp [hid]
    · intro q hq hq'
      exact huniq q hq (by simpa using hq')
  · intro id root habs
    rw [findElementById, _findInShadowDOM_eq]
    rw [List.find?_eq_none]
    intro q hq
    simpa using habs q hq

/-- C4: `findElementsBySelector` returns exactly the entries of the
depth-first document-then-nested-shadow enumeration of the elements
reachable through open shadow trees whose element matches the selector,
each paired with the root in which it directly matched — so every
reachable match appears exactly once, in traversal order, no duplicate
entries arise, and the result is empty when nothing matches. -/
theorem C4_findAll_filter (sel : String) (root : List Elem) :
    findElementsBySelector sel root =
      (reachAll root).filter (fun p => selMatches sel p.1) :=
  _findAllInShadowDOM_eq sel root

mutual

/-- All elements of a subtree including those inside closed shadow trees. -/
def allElemsE : Elem → List Elem
  | .mk i t m s c => .mk i t m s c :: (allElemsL s ++ allElemsL c)

/-- All elements under a root list including those inside closed shadow trees. -/
def allElemsL : List Elem → List Elem
  | [] => []
  | e :: es => allElemsE e ++ allElemsL es

end

/-- C8: closed shadow trees are invisible to both search operations:
if an identifier occurs in the tree (e.g. inside a closed shadow root)
but on no element reachable through open shadow trees, `findElementById`
returns not-found, and every result of `findElementsBySelector` lies in
the open-reachable enumeration. -/
theorem C8_closed_trees_invisible :
    (∀ (id : String) (root : List Elem),
        (∃ e ∈ allElemsL root, e.eid = id) →
        (∀ q ∈ reachAll root, q.1.eid ≠ id) →
        findElementById id root = none) ∧
    (∀ (sel : String) (root : List Elem) (p : Elem × List Elem),
        p ∈ findElementsBySelector sel root → p ∈ reachAll root) := by
  constructor
  · intro id root _ habs
    rw [findElementById, _findInShadowDOM_eq, List.find?_eq_none]
    intro q hq
    simpa using habs q hq
  · intro sel root p hp
    rw [findElementsBySelector, _findAllInShadowDOM_eq] at hp
    exact List.mem_of_mem_filter hp

section DispatcherLemmas

variable {V : Type} (inst : KitOptions) (reg : Registry V)
variable (acc : Elem → List Elem → Option V → Option V)
variable (doc : List Elem) (config : Config V)

/-- Branch lemma: a truthy `elementId` whose search succeeds leads into
the dispatch phase. -/
theorem initComponent_byId_found {r : Elem × List Elem}
    (h1 : truthyStr config.elementId = true)
    (h2 : findElementById (config.elementId.getD "") doc = some r) :
    initComponent inst reg acc doc config =
      Ev.delay (config.delay.getD inst.searchDelay) ::
      Ev.searchById (config.elementId.getD "") ::
      dispatchPhase reg acc config r.1 r.2 := by
  simp [initComponent, h1, h2]

/-- Branch lemma: a truthy `elementId` whose search fails warns and rejects. -/
theorem initComponent_byId_missing
    (h1 : truthyStr config.elementId = true)
    (h2 : findElementById (config.elementId.getD "") doc = none) :
    initComponent inst reg acc doc config =
      [Ev.delay (config.delay.getD inst.searchDelay),
       Ev.searchById (config.elementId.getD ""),
       Ev.logWarn ("Element with ID \"" ++ config.elementId.getD "" ++
         "\" not found in any DOM context."),
       Ev.settle (Outcome.failure (IErr.err
         ("Element with ID \"" ++ config.elementId.getD "" ++ "\" not found")))] := by
  simp [initComponent, h1, h2]

/-- Branch lemma: with a falsy `elementId`, a truthy `selector` whose
search returns a first match leads into the dispatch phase. -/
theorem initComponent_bySelector_found {r : Elem × List Elem} {rest : List (Elem × List Elem)}
    (h1 : truthyStr config.elementId = false)
    (h2 : truthyStr config.selector = true)
    (h3 : findElementsBySelector (config.selector.getD "") doc = r :: rest) :
    initComponent inst reg acc doc config =
      Ev.delay (config.delay.getD inst.searchDelay) ::
      Ev.searchBySelector (config.selector.getD "") ::
      dispatchPhase reg acc config r.1 r.2 := by
  simp [initComponent, h1, h2, h3]

/-- Branch lemma: with a falsy `elementId`, a truthy `selector` matching
nothing warns and rejects. -/
theorem initComponent_bySelector_missing
    (h1 : truthyStr config.elementId = false)
    (h2 : truthyStr config.selector = true)
    (h3 : findElementsBySelector (config.selector.getD "") doc = []) :
    initComponent inst reg acc doc config =
      [Ev.delay (config.delay.getD inst.searchDelay),
       Ev.searchBySelector (config.selector.getD ""),
       Ev.logWarn ("No elements matching \"" ++ config.selector.getD "" ++
         "\" found in any DOM context."),
       Ev.settle (Outcome.failure (IErr.err
         ("No elements matching \"" ++ config.selector.getD "" ++ "\" found")))] := by
  simp [initComponent, h1, h2, h3]

/-- Branch lemma: with both search fields falsy, the request rejects with
the target configuration error (still after the delay suspension). -/
theorem initComponent_noTarget
    (h1 : truthyStr config.elementId = false)
    (h2 : truthyStr config.selector = false) :
    initComponent inst reg acc doc config =
      [Ev.delay (config.delay.getD inst.searchDelay),
       Ev.logError "Either elementId or selector must be provided",
       Ev.settle (Outcome.failure
         (IErr.err "Either elementId or selector must be provided"))] := by
  simp [initComponent, h1, h2]

/-- Dispatch lemma: a non-function (or absent) `customInit` together with
a falsy `componentType` rejects with the handler configuration error. -/
theorem dispatchPhase_noHandler {el : Elem} {ctx : List Elem}
    (h1 : ∀ hf : Handler V, config.customInit ≠ some (RegArg.fn hf))
    (h2 : truthyStr config.componentType = false) :
    dispatchPhase reg acc config el ctx =
      [Ev.logError "Either componentType or customInit must be provided",
       Ev.settle (Outcome.failure
         (IErr.err "Either componentType or customInit must be provided"))] := by
  rw [dispatchPhase]
  cases hc : config.customInit with
  | none => simp [h2]
  | some arg =>
    cases arg with
    | fn hf => exact absurd hc (h1 hf)
    | nonfn v => simp [h2]

/-- Dispatch lemma: a non-function (or absent) `customInit` with a truthy
`componentType` resolved through `_initializeByType`. -/
theorem dispatchPhase_byType {el : Elem} {ctx : List Elem}
    (h1 : ∀ hf : Handler V, config.customInit ≠ some (RegArg.fn hf))
    (h2 : truthyStr config.componentType = true) :
    dispatchPhase reg acc config el ctx =
      (_initializeByType reg acc (config.componentType.getD "") el ctx config.options).1 ++
      settleEvents
        (_initializeByType reg acc (config.componentType.getD "") el ctx config.options).2 := by
  rw [dispatchPhase]
  cases hc : config.customInit with
  | none => simp [h2]
  | some arg =>
    cases arg with
    | fn hf => exact absurd hc (h1 hf)
    | nonfn v => simp [h2]

/-- Dispatch lemma: a function-valued `customInit` is invoked directly. -/
theorem dispatchPhase_custom {el : Elem} {ctx : List Elem} {hf : Handler V}
    (h1 : config.customInit = some (RegArg.fn hf)) :
    dispatchPhase reg acc config el ctx =
      Ev.invokeCustom :: settleEvents (hf el ctx config.options) := by
  rw [dispatchPhase, h1]

/-- Settling a handler outcome emits no element search. -/
theorem settleEvents_no_search (o : HOut V) :
    ∀ e ∈ settleEvents o, Ev.isSearch e = false := by
  intro e he
  cases o with
  | ret v =>
    simp [settleEvents] at he
    subst he; rfl
  | thr e' =>
    simp [settleEvents] at he
    rcases he with rfl | rfl <;> rfl

/-- `_initializeByType` emits no element search. -/
theorem _initializeByType_no_search {ct : String} {el : Elem} {ctx : List Elem}
    {opts : Option V} :
    ∀ e ∈ (_initializeByType reg acc ct el ctx opts).1, Ev.isSearch e = false := by
  intro e he
  rw [_initializeByType] at he
  split at he
  · simp at he
    subst he; rfl
  · split at he
    · simp at he
      subst he; rfl
    · simp at he
      subst he; rfl

/-- The dispatch phase never performs an element search. -/
theorem dispatchPhase_no_search {el : Elem} {ctx : List Elem} :
    ∀ e ∈ dispatchPhase reg acc config el ctx, Ev.isSearch e = false := by
  intro e he
  rcases hc : config.customInit with _ | arg
  case some =>
    rcases arg with hf | v
    · rw [dispatchPhase_custom reg acc config hc] at he
      rcases List.mem_cons.mp he with rfl | h
      · rfl
      · exact settleEvents_no_search _ e h
    · have h1 : ∀ hf : Handler V, config.customInit ≠ some (RegArg.fn hf) := by
        intro hf h
        rw [hc] at h
        cases h
      by_cases h2 : truthyStr config.componentType = true
      · rw [dispatchPhase_byType reg acc config h1 h2] at he
        rcases List.mem_append.mp he with h | h
        · exact _initializeByType_no_search reg acc e h
        · exact settleEvents_no_search _ e h
      · rw [dispatchPhase_noHandler reg acc config h1
          (Bool.not_eq_true _ ▸ eq_false_of_ne_true h2)] at he
        rcases List.mem_cons.mp he with rfl | h
        · rfl
        · rcases List.mem_cons.mp h with rfl | h'
          · rfl
          · cases h'
  case none =>
    have h1 : ∀ hf : Handler V, config.customInit ≠ some (RegArg.fn hf) := by
      intro hf h
      rw [hc] at h
      cases h
    by_cases h2 : truthyStr config.componentType = true
    · rw [dispatchPhase_byType reg acc config h1 h2] at he
      rcases List.mem_append.mp he with h | h
      · exact _initializeByType_no_search reg acc e h
      · exact settleEvents_no_search _ e h
    · rw [dispatchPhase_noHandler reg acc config h1
        (Bool.not_eq_true _ ▸ eq_false_of_ne_true h2)] at he
      rcases List.mem_cons.mp he with rfl | h
      · rfl
      · rcases List.mem_cons.mp h with rfl | h'
        · rfl
        · cases h'

end DispatcherLemmas

/-!
Concrete fixtures used to instantiate the theorems: a single document
element with id `e`, a document with an open shadow tree holding an
element with id `deep`, and a document with a closed shadow tree holding
an element with id `secret`.
-/

/-- An element with id `e`, tag `w`, no shadow root, no children. -/
def leafW : Elem := Elem.mk "e" ["w"] none [] []

/-- A one-element document. -/
def docW : List Elem := [leafW]

/-- An element with id `deep` inside the open shadow tree below. -/
def innerW : Elem := Elem.mk "deep" ["t"] none [] []

/-- A host with an open shadow root containing `innerW`. -/
def hostW : Elem := Elem.mk "host" [] (some true) [innerW] []

/-- A document whose only light element hosts an open shadow tree. -/
def docNest : List Elem := [hostW]

/-- An element with id `secret` inside the closed shadow tree below. -/
def secretW : Elem := Elem.mk "secret" ["s"] none [] []

/-- A host with a closed shadow root containing `secretW`. -/
def hostClosed : Elem := Elem.mk "chost" [] (some false) [secretW] []

/-- A document whose only light element hosts a closed shadow tree. -/
def docClosed : List Elem := [hostClosed]

/-- A trivial environment for the external accordion initializer. -/
def accNone : Elem → List Elem → Option Nat → Option Nat := fun _ _ _ => none

theorem reachAll_docW : reachAll docW = [(leafW, docW)] := by
  rw [reachAll_unfold]
  simp [docW, leafW, lightDescL, lightDescE, querySelectorAll, selMatches,
    Elem.shadowRoot, Elem.mode, Elem.tags]

theorem reachAll_docNest : reachAll docNest = [(hostW, docNest), (innerW, [innerW])] := by
  have h1 : reachAll [innerW] = [(innerW, [innerW])] := by
    rw [reachAll_unfold]
    simp [innerW, lightDescL, lightDescE, querySelectorAll, selMatches,
      Elem.shadowRoot, Elem.mode, Elem.tags]
  rw [reachAll_unfold]
  simp [docNest, hostW, h1, lightDescL, lightDescE, querySelectorAll, selMatches,
    Elem.shadowRoot, Elem.mode, Elem.shadow, Elem.tags]

theorem reachAll_docClosed : reachAll docClosed = [(hostClosed, docClosed)] := by
  rw [reachAll_unfold]
  simp [docClosed, hostClosed, lightDescL, lightDescE, querySelectorAll, selMatches,
    Elem.shadowRoot, Elem.mode, Elem.tags]

theorem findById_e_docW : findElementById "e" docW = some (leafW, docW) := by
  rw [findElementById, _findInShadowDOM_eq, reachAll_docW]
  simp [leafW, Elem.eid]

theorem findById_missing_docW : findElementById "missing-id" docW = none := by
  rw [findElementById, _findInShadowDOM_eq, reachAll_docW]
  simp [leafW, Elem.eid]

/-- Witness for C3: in the nested-shadow fixture the id `deep` occurs at
exactly one reachable place and is found there with its containing shadow
tree as context; the absent id `nope` is reported not-found. -/
theorem C3_witness :
    findElementById "deep" docNest = some (innerW, [innerW]) ∧
    findElementById "nope" docNest = none := by
  constructor
  · apply C3_findById_unique_and_absent.1 "deep" docNest (innerW, [innerW])
    · rw [reachAll_docNest]
      simp
    · rfl
    · rw [reachAll_docNest]
      intro q hq hid
      rcases List.mem_cons.mp hq with rfl | hq'
      · exact absurd hid (by simp [hostW, Elem.eid])
      · rcases List.mem_cons.mp hq' with rfl | hq''
        · rfl
        · cases hq''
  · apply C3_findById_unique_and_absent.2 "nope" docNest
    rw [reachAll_docNest]
    intro q hq
    rcases List.mem_cons.mp hq with rfl | hq'
    · simp [hostW, Elem.eid]
    · rcases List.mem_cons.mp hq' with rfl | hq''
      · simp [innerW, Elem.eid]
      · cases hq''

/-- Witness for C8: the id `secret` lives only inside a closed shadow
tree, so `findElementById` reports not-found, and a selector search over
the same tree only returns open-reachable entries. -/
theorem C8_witness :
    (∃ e ∈ allElemsL docClosed, e.eid = "secret") ∧
    findElementById "secret" docClosed = none := by
  have hall : allElemsL docClosed = [hostClosed, secretW] := rfl
  have hmem : ∃ e ∈ allElemsL docClosed, e.eid = "secret" := by
    rw [hall]
    exact ⟨secretW, by simp, rfl⟩
  refine ⟨hmem, ?_⟩
  apply C8_closed_trees_invisible.1 "secret" docClosed hmem
  rw [reachAll_docClosed]
  intro q hq
  rcases List.mem_cons.mp hq with rfl | hq'
  · simp [hostClosed, Elem.eid]
  · cases hq'

/-- Claim C7: `registerComponentType` with a non-invocable argument logs
an error and leaves the registry unchanged; with a function it stores it
under the name so that lookup finds it, and after two registrations under
the same name, dispatch by that name invokes only the second handler. -/
theorem C7_register_last_write_wins :
    (∀ (V : Type) (reg : Registry V) (name : String) (v : Option V),
        registerComponentType reg name (RegArg.nonfn v) =
          ([Ev.logError "Init function must be a function"], reg)) ∧
    (∀ (V : Type) (reg : Registry V) (name : String) (f : Handler V),
        lookupCallback (registerComponentType reg name (RegArg.fn f)).2 name = some f) ∧
    (∀ (V : Type) (reg : Registry V) (name : String) (f g : Handler V)
        (acc : Elem → List Elem → Option V → Option V)
        (el : Elem) (ctx : List Elem) (opts : Option V),
        _initializeByType
          (registerComponentType
            (registerComponentType reg name (RegArg.fn f)).2 name (RegArg.fn g)).2
          acc name el ctx opts = ([Ev.invokeRegistry name], g el ctx opts)) := by
  refine ⟨fun V reg name v => rfl, fun V reg name f => ?_, fun V reg name f g acc el ctx opts => ?_⟩
  · simp [registerComponentType, lookupCallback]
  · have hl : lookupCallback
        (registerComponentType
          (registerComponentType reg name (RegArg.fn f)).2 name (RegArg.fn g)).2 name =
        some g := by
      simp [registerComponentType, lookupCallback]
    rw [_initializeByType, hl]

/-- Claim C6: when the locate step finds nothing (absent id, or selector
with no matches), the request settles as a not-found failure whose error
message names the searched id/selector, the warning is logged before the
settle, and no handler is invoked. -/
theorem C6_not_found_failure :
    (∀ (V : Type) (inst : KitOptions) (reg : Registry V)
        (acc : Elem → List Elem → Option V → Option V) (doc : List Elem)
        (config : Config V),
        truthyStr config.elementId = true →
        findElementById (config.elementId.getD "") doc = none →
        initComponent inst reg acc doc config =
          [Ev.delay (config.delay.getD inst.searchDelay),
           Ev.searchById (config.elementId.getD ""),
           Ev.logWarn ("Element with ID \"" ++ config.elementId.getD "" ++
             "\" not found in any DOM context."),
           Ev.settle (Outcome.failure (IErr.err
             ("Element with ID \"" ++ config.elementId.getD "" ++ "\" not found")))] ∧
        (∀ e ∈ initComponent inst reg acc doc config, Ev.isInvoke e = false)) ∧
    (∀ (V : Type) (inst : KitOptions) (reg : Registry V)
        (acc : Elem → List Elem → Option V → Option V) (doc : List Elem)
        (config : Config V),
        truthyStr config.elementId = false →
        truthyStr config.selector = true →
        findElementsBySelector (config.selector.getD "") doc = [] →
        initComponent inst reg acc doc config =
          [Ev.delay (config.delay.getD inst.searchDelay),
           Ev.searchBySelector (config.selector.getD ""),
           Ev.logWarn ("No elements matching \"" ++ config.selector.getD "" ++
             "\" found in any DOM context."),
           Ev.settle (Outcome.failure (IErr.err
             ("No elements matching \"" ++ config.selector.getD "" ++ "\" found")))] ∧
        (∀ e ∈ initComponent inst reg acc doc config, Ev.isInvoke e = false)) := by
  constructor
  · intro V inst reg acc doc config h1 h2
    have htr := initComponent_byId_missing inst reg acc doc config h1 h2
    refine ⟨htr, ?_⟩
    intro e he
    rw [htr] at he
    rcases List.mem_cons.mp he with rfl | he
    · rfl
    · rcases List.mem_cons.mp he with rfl | he
      · rfl
      · rcases List.mem_cons.mp he with rfl | he
        · rfl
        · rcases List.mem_cons.mp he with rfl | he
          · rfl
          · cases he
  · intro V inst reg acc doc config h1 h2 h3
    have htr := initComponent_bySelector_missing inst reg acc doc config h1 h2 h3
    refine ⟨htr, ?_⟩
    intro e he
    rw [htr] at he
    rcases List.mem_cons.mp he with rfl | he
    · rfl
    · rcases List.mem_cons.mp he with rfl | he
      · rfl
      · rcases List.mem_cons.mp he with rfl | he
        · rfl
        · rcases List.mem_cons.mp he with rfl | he
          · rfl
          · cases he

/-- Witness for C6: the spec's own example — `elementId: 'missing-id'`,
`componentType: 'x'` against a tree lacking that id. -/
theorem C6_witness :
    initComponent {} ([] : Registry Nat) accNone docW
        { elementId := some "missing-id", componentType := some "x" } =
      [Ev.delay 300, Ev.searchById "missing-id",
       Ev.logWarn "Element with ID \"missing-id\" not found in any DOM context.",
       Ev.settle (Outcome.failure (IErr.err "Element with ID \"missing-id\" not found"))] := by
  have h := (C6_not_found_failure.1 Nat {} [] accNone docW
    { elementId := some "missing-id", componentType := some "x" }
    (by rfl) findById_missing_docW).1
  exact h

/-- Claim C9: with a truthy `elementId` (in particular when a selector is
also supplied) the request behaves exactly as if the selector were
absent — same events, same outcome, no diagnostic about the ignored
selector — and the locate step is a `findElementById` search only: the
trace contains the id search and never a selector search. -/
theorem C9_elementId_priority :
    ∀ (V : Type) (inst : KitOptions) (reg : Registry V)
      (acc : Elem → List Elem → Option V → Option V) (doc : List Elem)
      (config : Config V),
      truthyStr config.elementId = true →
      truthyStr config.selector = true →
      (initComponent inst reg acc doc config =
        initComponent inst reg acc doc {config with selector := none}) ∧
      (∀ s, Ev.searchBySelector s ∉ initComponent inst reg acc doc config) ∧
      Ev.searchById (config.elementId.getD "") ∈ initComponent inst reg acc doc config := by
  intro V inst reg acc doc config h1 _h2
  have hd : ∀ (el : Elem) (ctx : List Elem),
      dispatchPhase reg acc config el ctx =
        dispatchPhase reg acc {config with selector := none} el ctx := fun el ctx => rfl
  refine ⟨?_, ?_, ?_⟩
  · cases hf : findElementById (config.elementId.getD "") doc with
    | some r =>
      rw [initComponent_byId_found inst reg acc doc config h1 hf,
        initComponent_byId_found inst reg acc doc {config with selector := none} h1 hf,
        hd]
    | none =>
      rw [initComponent_byId_missing inst reg acc doc config h1 hf,
        initComponent_byId_missing inst reg acc doc {config with selector := none} h1 hf]
  · intro s hs
    cases hf : findElementById (config.elementId.getD "") doc with
    | some r =>
      rw [initComponent_byId_found inst reg acc doc config h1 hf] at hs
      rcases List.mem_cons.mp hs with heq | hs
      · cases heq
      · rcases List.mem_cons.mp hs with heq | hs
        · cases heq
        · have := dispatchPhase_no_search reg acc config (Ev.searchBySelector s) hs
          simp [Ev.isSearch] at this
    | none =>
      rw [initComponent_byId_missing inst reg acc doc config h1 hf] at hs
      rcases List.mem_cons.mp hs with heq | hs
      · cases heq
      · rcases List.mem_cons.mp hs with heq | hs
        · cases heq
        · rcases List.mem_cons.mp hs with heq | hs
          · cases heq
          · rcases List.mem_cons.mp hs with heq | hs
            · cases heq
            · cases hs
  · cases hf : findElementById (config.elementId.getD "") doc with
    | some r =>
      rw [initComponent_byId_found inst reg acc doc config h1 hf]
      exact List.mem_cons_of_mem _ (List.mem_cons_self _ _)
    | none =>
      rw [initComponent_byId_missing inst reg acc doc config h1 hf]
      exact List.mem_cons_of_mem _ (List.mem_cons_self _ _)

/-- Witness for C9: a request supplying both `elementId` and `selector`
produces the same trace as the selector-free request. -/
theorem C9_witness :
    initComponent {} ([] : Registry Nat) accNone docW
        { elementId := some "e", selector := some ".w", componentType := some "x" } =
      initComponent {} ([] : Registry Nat) accNone docW
        { elementId := some "e", componentType := some "x" } := by
  have h := (C9_elementId_priority Nat {} [] accNone docW
    { elementId := some "e", selector := some ".w", componentType := some "x" }
    (by rfl) (by rfl)).1
  exact h

/-- Claim C10: a `customInit` that is present but not a function is
silently ignored — the request behaves exactly as if `customInit` were
absent (so it is never invoked and never reported as an error itself),
dispatch falls through to the `componentType` path, and with no truthy
`componentType` the request settles with the handler configuration
error. -/
theorem C10_nonfunction_customInit_ignored :
    (∀ (V : Type) (inst : KitOptions) (reg : Registry V)
        (acc : Elem → List Elem → Option V → Option V) (doc : List Elem)
        (config : Config V) (v : Option V),
        config.customInit = some (RegArg.nonfn v) →
        initComponent inst reg acc doc config =
          initComponent inst reg acc doc {config with customInit := none}) ∧
    (∀ (V : Type) (inst : KitOptions) (reg : Registry V)
        (acc : Elem → List Elem → Option V → Option V) (doc : List Elem)
        (config : Config V) (v : Option V) (r : Elem × List Elem),
        config.customInit = some (RegArg.nonfn v) →
        truthyStr config.elementId = true →
        findElementById (config.elementId.getD "") doc = some r →
        truthyStr config.componentType = false →
        initComponent inst reg acc doc config =
          [Ev.delay (config.delay.getD inst.searchDelay),
           Ev.searchById (config.elementId.getD ""),
           Ev.logError "Either componentType or customInit must be provided",
           Ev.settle (Outcome.failure
             (IErr.err "Either componentType or customInit must be provided"))]) := by
  constructor
  · intro V inst reg acc doc config v h
    have hd : ∀ (el : Elem) (ctx : List Elem),
        dispatchPhase reg acc config el ctx =
          dispatchPhase reg acc {config with customInit := none} el ctx := by
      intro el ctx
      conv_lhs => rw [dispatchPhase, h]
      conv_rhs => rw [dispatchPhase]
    rcases h1 : truthyStr config.elementId with _ | _
    · rcases h2 : truthyStr config.selector with _ | _
      · rw [initComponent_noTarget inst reg acc doc config h1 h2,
          initComponent_noTarget inst reg acc doc {config with customInit := none} h1 h2]
      · cases hf : findElementsBySelector (config.selector.getD "") doc with
        | nil =>
          rw [initComponent_bySelector_missing inst reg acc doc config h1 h2 hf,
            initComponent_bySelector_missing inst reg acc doc
              {config with customInit := none} h1 h2 hf]
        | cons r rest =>
          rw [initComponent_bySelector_found inst reg acc doc config h1 h2 hf,
            initComponent_bySelector_found inst reg acc doc
              {config with customInit := none} h1 h2 hf, hd]
    · cases hf : findElementById (config.elementId.getD "") doc with
      | none =>
        rw [initComponent_byId_missing inst reg acc doc config h1 hf,
          initComponent_byId_missing inst reg acc doc {config with customInit := none} h1 hf]
      | some r =>
        rw [initComponent_byId_found inst reg acc doc config h1 hf,
          initComponent_byId_found inst reg acc doc {config with customInit := none} h1 hf, hd]
  · intro V inst reg acc doc config v r h h1 hf h4
    rw [initComponent_byId_found inst reg acc doc config h1 hf]
    rw [dispatchPhase_noHandler reg acc config (fun hfn hcontra => by
      rw [h] at hcontra
      cases hcontra) h4]

/-- Witness for C10: a request with a non-function `customInit`, a found
element and no `componentType` behaves as if `customInit` were absent and
settles with the handler configuration error. -/
theorem C10_witness :
    (initComponent {} ([] : Registry Nat) accNone docW
        { elementId := some "e", customInit := some (RegArg.nonfn (some 7)) } =
      initComponent {} ([] : Registry Nat) accNone docW
        { elementId := some "e" }) ∧
    initComponent {} ([] : Registry Nat) accNone docW
        { elementId := some "e", customInit := some (RegArg.nonfn (some 7)) } =
      [Ev.delay 300, Ev.searchById "e",
       Ev.logError "Either componentType or customInit must be provided",
       Ev.settle (Outcome.failure
         (IErr.err "Either componentType or customInit must be provided"))] := by
  constructor
  · exact C10_nonfunction_customInit_ignored.1 Nat {} [] accNone docW
      { elementId := some "e", customInit := some (RegArg.nonfn (some 7)) } (some 7) rfl
  · exact C10_nonfunction_customInit_ignored.2 Nat {} [] accNone docW
      { elementId := some "e", customInit := some (RegArg.nonfn (some 7)) } (some 7)
      (leafW, docW) rfl rfl findById_e_docW rfl

/-- Claim C5: a resolved handler (a `customInit` function whether the
element was located by id or by selector, or a registry handler) that
throws synchronously has the thrown value caught, logged, and settled as
the failure reason of the request — never an uncaught fault and never a
success. -/
theorem C5_thrown_handler_becomes_failure :
    (∀ (V : Type) (inst : KitOptions) (reg : Registry V)
        (acc : Elem → List Elem → Option V → Option V) (doc : List Elem)
        (config : Config V) (hf : Handler V) (e : V) (r : Elem × List Elem),
        truthyStr config.elementId = true →
        findElementById (config.elementId.getD "") doc = some r →
        config.customInit = some (RegArg.fn hf) →
        hf r.1 r.2 config.options = HOut.thr e →
        initComponent inst reg acc doc config =
          [Ev.delay (config.delay.getD inst.searchDelay),
           Ev.searchById (config.elementId.getD ""),
           Ev.invokeCustom,
           Ev.logError "Error initializing component:",
           Ev.settle (Outcome.failure (IErr.raised e))]) ∧
    (∀ (V : Type) (inst : KitOptions) (reg : Registry V)
        (acc : Elem → List Elem → Option V → Option V) (doc : List Elem)
        (config : Config V) (hb : Handler V) (e : V) (r : Elem × List Elem),
        truthyStr config.elementId = true →
        findElementById (config.elementId.getD "") doc = some r →
        (∀ hf : Handler V, config.customInit ≠ some (RegArg.fn hf)) →
        truthyStr config.componentType = true →
        lookupCallback reg (config.componentType.getD "") = some hb →
        hb r.1 r.2 config.options = HOut.thr e →
        initComponent inst reg acc doc config =
          [Ev.delay (config.delay.getD inst.searchDelay),
           Ev.searchById (config.elementId.getD ""),
           Ev.invokeRegistry (config.componentType.getD ""),
           Ev.logError "Error initializing component:",
           Ev.settle (Outcome.failure (IErr.raised e))]) ∧
    (∀ (V : Type) (inst : KitOptions) (reg : Registry V)
        (acc : Elem → List Elem → Option V → Option V) (doc : List Elem)
        (config : Config V) (hf : Handler V) (e : V) (r : Elem × List Elem)
        (rest : List (Elem × List Elem)),
        truthyStr config.elementId = false →
        truthyStr config.selector = true →
        findElementsBySelector (config.selector.getD "") doc = r :: rest →
        config.customInit = some (RegArg.fn hf) →
        hf r.1 r.2 config.options = HOut.thr e →
        initComponent inst reg acc doc config =
          [Ev.delay (config.delay.getD inst.searchDelay),
           Ev.searchBySelector (config.selector.getD ""),
           Ev.invokeCustom,
           Ev.logError "Error initializing component:",
           Ev.settle (Outcome.failure (IErr.raised e))]) := by
  refine ⟨?_, ?_, ?_⟩
  · intro V inst reg acc doc config hf e r h1 h2 h3 h4
    rw [initComponent_byId_found inst reg acc doc config h1 h2,
      dispatchPhase_custom reg acc config h3, h4, settleEvents]
  · intro V inst reg acc doc config hb e r h1 h2 h3 h4 h5 h6
    rw [initComponent_byId_found inst reg acc doc config h1 h2,
      dispatchPhase_byType reg acc config h3 h4,
      _initializeByType, h5]
    simp [h6, settleEvents]
  · intro V inst reg acc doc config hf e r rest h1 h2 h3 h4 h5
    rw [initComponent_bySelector_found inst reg acc doc config h1 h2 h3,
      dispatchPhase_custom reg acc config h4, h5, settleEvents]

/-- A custom initializer that always throws the value 42. -/
def throwH : Handler Nat := fun _ _ _ => HOut.thr 42

/-- Witness for C5: a throwing `customInit` settles the request as a
failure carrying the thrown value. -/
theorem C5_witness :
    initComponent {} ([] : Registry Nat) accNone docW
        { elementId := some "e", customInit := some (RegArg.fn throwH) } =
      [Ev.delay 300, Ev.searchById "e", Ev.invokeCustom,
       Ev.logError "Error initializing component:",
       Ev.settle (Outcome.failure (IErr.raised 42))] := by
  exact C5_thrown_handler_becomes_failure.1 Nat {} [] accNone docW
    { elementId := some "e", customInit := some (RegArg.fn throwH) }
    throwH 42 (leafW, docW) rfl findById_e_docW rfl rfl

/-- Claim C1 as amended: an `initComponent` request whose element is
found and whose `componentType` names neither a registry entry nor a
built-in fallback name (with no function-valued `customInit`) settles as
a SUCCESS with a null result after logging an unknown-component-type
warning, and no handler is invoked. -/
theorem C1_unknown_type_resolves_null :
    ∀ (V : Type) (inst : KitOptions) (reg : Registry V)
      (acc : Elem → List Elem → Option V → Option V) (doc : List Elem)
      (config : Config V) (r : Elem × List Elem),
      truthyStr config.elementId = true →
      findElementById (config.elementId.getD "") doc = some r →
      (∀ hf : Handler V, config.customInit ≠ some (RegArg.fn hf)) →
      truthyStr config.componentType = true →
      lookupCallback reg (config.componentType.getD "") = none →
      (toLowerCase (config.componentType.getD "") == "flowbite-accordion" ||
        toLowerCase (config.componentType.getD "") == "accordion") = false →
      initComponent inst reg acc doc config =
        [Ev.delay (config.delay.getD inst.searchDelay),
         Ev.searchById (config.elementId.getD ""),
         Ev.logWarn ("Unknown component type: " ++ config.componentType.getD ""),
         Ev.settle (Outcome.success none)] ∧
      (∀ e ∈ initComponent inst reg acc doc config, Ev.isInvoke e = false) := by
  intro V inst reg acc doc config r h1 h2 h3 h4 h5 h6
  have htr : initComponent inst reg acc doc config =
      [Ev.delay (config.delay.getD inst.searchDelay),
       Ev.searchById (config.elementId.getD ""),
       Ev.logWarn ("Unknown component type: " ++ config.componentType.getD ""),
       Ev.settle (Outcome.success none)] := by
    rw [initComponent_byId_found inst reg acc doc config h1 h2,
      dispatchPhase_byType reg acc config h3 h4,
      _initializeByType, h5]
    simp [h6, settleEvents]
  refine ⟨htr, ?_⟩
  intro e he
  rw [htr] at he
  rcases List.mem_cons.mp he with rfl | he
  · rfl
  · rcases List.mem_cons.mp he with rfl | he
    · rfl
    · rcases List.mem_cons.mp he with rfl | he
      · rfl
      · rcases List.mem_cons.mp he with rfl | he
        · rfl
        · cases he

/-- Counterexample to claim C1 as stated: a found element with the
unregistered, non-built-in component type `widget` makes the request
settle as a SUCCESS with a null result (the promise resolves), not as a
failure with an unknown-component-type error. -/
theorem C1_counterexample :
    initComponent {} ([] : Registry Nat) accNone docW
        { elementId := some "e", componentType := some "widget" } =
      [Ev.delay 300, Ev.searchById "e",
       Ev.logWarn "Unknown component type: widget",
       Ev.settle (Outcome.success none)] ∧
    settleOf (initComponent {} ([] : Registry Nat) accNone docW
        { elementId := some "e", componentType := some "widget" }) =
      some (Outcome.success none) := by
  have htr : initComponent {} ([] : Registry Nat) accNone docW
      { elementId := some "e", componentType := some "widget" } =
      [Ev.delay 300, Ev.searchById "e",
       Ev.logWarn "Unknown component type: widget",
       Ev.settle (Outcome.success none)] := by
    rw [initComponent_byId_found {} [] accNone docW
      { elementId := some "e", componentType := some "widget" } rfl findById_e_docW,
      dispatchPhase_byType [] accNone
        { elementId := some "e", componentType := some "widget" }
        (fun hf h => by cases h) rfl,
      _initializeByType]
    simp [lookupCallback, settleEvents]
    rw [if_neg (by decide)]
    simp [settleEvents]
  refine ⟨htr, ?_⟩
  rw [htr]
  rfl

/-- Witness for the amended claim C1 at the concrete input of the
counterexample, discharging every hypothesis there. -/
theorem C1_witness :
    initComponent {} ([] : Registry Nat) accNone docW
        { elementId := some "e", componentType := some "widget", options := some 1 } =
      [Ev.delay 300, Ev.searchById "e",
       Ev.logWarn "Unknown component type: widget",
       Ev.settle (Outcome.success none)] := by
  exact (C1_unknown_type_resolves_null Nat {} [] accNone docW
    { elementId := some "e", componentType := some "widget", options := some 1 }
    (leafW, docW) rfl findById_e_docW (fun hf h => by cases h) rfl rfl (by decide)).1

/-- Claim C2 as amended: the missing-field configuration failures happen
inside the timer callback, i.e. only after the delay suspension: a
request with neither `elementId` nor `selector` settles as a
configuration-error failure right after the delay with no element search,
while a request with neither `componentType` nor a function-valued
`customInit` settles its configuration-error failure only after the
element search has run and found the element. -/
theorem C2_config_error_after_delay :
    (∀ (V : Type) (inst : KitOptions) (reg : Registry V)
        (acc : Elem → List Elem → Option V → Option V) (doc : List Elem)
        (config : Config V),
        truthyStr config.elementId = false →
        truthyStr config.selector = false →
        initComponent inst reg acc doc config =
          [Ev.delay (config.delay.getD inst.searchDelay),
           Ev.logError "Either elementId or selector must be provided",
           Ev.settle (Outcome.failure
             (IErr.err "Either elementId or selector must be provided"))]) ∧
    (∀ (V : Type) (inst : KitOptions) (reg : Registry V)
        (acc : Elem → List Elem → Option V → Option V) (doc : List Elem)
        (config : Config V) (r : Elem × List Elem),
        truthyStr config.elementId = true →
        findElementById (config.elementId.getD "") doc = some r →
        (∀ hf : Handler V, config.customInit ≠ some (RegArg.fn hf)) →
        truthyStr config.componentType = false →
        initComponent inst reg acc doc config =
          [Ev.delay (config.delay.getD inst.searchDelay),
           Ev.searchById (config.elementId.getD ""),
           Ev.logError "Either componentType or customInit must be provided",
           Ev.settle (Outcome.failure
             (IErr.err "Either componentType or customInit must be provided"))]) := by
  constructor
  · intro V inst reg acc doc config h1 h2
    exact initComponent_noTarget inst reg acc doc config h1 h2
  · intro V inst reg acc doc config r h1 h2 h3 h4
    rw [initComponent_byId_found inst reg acc doc config h1 h2,
      dispatchPhase_noHandler reg acc config h3 h4]

/-- Counterexample to claim C2 as stated: for a request supplying neither
`elementId` nor `selector`, the first event of the request is the delay
suspension and the configuration-error settlement only follows it — the
request does not settle as the first step of the algorithm before the
delay. -/
theorem C2_counterexample :
    initComponent {} ([] : Registry Nat) accNone docW ({} : Config Nat) =
      [Ev.delay 300,
       Ev.logError "Either elementId or selector must be provided",
       Ev.settle (Outcome.failure
         (IErr.err "Either elementId or selector must be provided"))] ∧
    (initComponent {} ([] : Registry Nat) accNone docW ({} : Config Nat)).head? =
      some (Ev.delay 300) ∧
    ((initComponent {} ([] : Registry Nat) accNone docW ({} : Config Nat)).head?.map
        Ev.isSettle) = some false := by
  have htr : initComponent {} ([] : Registry Nat) accNone docW ({} : Config Nat) =
      [Ev.delay 300,
       Ev.logError "Either elementId or selector must be provided",
       Ev.settle (Outcome.failure
         (IErr.err "Either elementId or selector must be provided"))] :=
    initComponent_noTarget {} [] accNone docW {} rfl rfl
  exact ⟨htr, by rw [htr]; rfl, by rw [htr]; rfl⟩

/-- Witness for the amended claim C2 at concrete inputs, discharging
every hypothesis of both parts. -/
theorem C2_witness :
    initComponent {} ([] : Registry Nat) accNone docW ({ selector := some "" } : Config Nat) =
      [Ev.delay 300,
       Ev.logError "Either elementId or selector must be provided",
       Ev.settle (Outcome.failure
         (IErr.err "Either elementId or selector must be provided"))] ∧
    initComponent {} ([] : Registry Nat) accNone docW ({ elementId := some "e" } : Config Nat) =
      [Ev.delay 300, Ev.searchById "e",
       Ev.logError "Either componentType or customInit must be provided",
       Ev.settle (Outcome.failure
         (IErr.err "Either componentType or customInit must be provided"))] := by
  constructor
  · exact C2_config_error_after_delay.1 Nat {} [] accNone docW { selector := some "" } rfl rfl
  · exact C2_config_error_after_delay.2 Nat {} [] accNone docW { elementId := some "e" }
      (leafW, docW) rfl findById_e_docW (fun hf h => by cases h) rfl

end ShadowKit
